import Mathlib

/-!
# Verification of the WaveCX react client core

A shallow embedding, in Lean, of the event-driven session/content-cache
state machine and its leaf components (retry executor, session store,
content fetcher, URL validation) from the `wavecx-react` repository,
together with proofs of the behavioural properties claimed in its
specification.

Sources embedded:
* `src/retry.ts` (`retryWithBackoff`, `defaultRetryConfig`)
* `src/sessions.ts` (`storeSessionToken`, `readSessionToken`, `clearSessionToken`)
* `src/targeted-content.ts` (`composeFireTargetedContentEventViaApi`)
* `src/provider.tsx` (`handleEvent`, `checkPopupContent`,
  `isValidContentUrl`, `useWaveCx`, `presentedContent`)
* the mock-mode revision of the provider (its two-argument
  `isValidContentUrl` that admits `data:` URLs when mock mode is on)

Modelling conventions:
* Time instants are natural numbers of milliseconds since the epoch;
  `Date.now()` becomes an explicit `now : Nat` parameter, and the ISO
  timestamp persisted by the session store is modelled directly as the
  instant it denotes (ISO serialisation round-trips).
* Asynchronous handlers are split at their suspension points: a
  `session-started` event becomes an atomic *begin* action (the code up
  to the awaited fetch) and an atomic *complete* action (the code after
  the fetch settles, parameterised by the fetch outcome).  All other
  event handlers contain no `await` and are single atomic actions.
* Fallible operations return `Except`; a thrown JavaScript value is the
  `Except.error` payload, so "re-throws the same error object" becomes
  equality of that payload.
* Opaque pass-through data (modal styling, loading-indicator options,
  user attributes, the `type: 'featurette'` constant) carries no
  state-machine semantics and is omitted from the embedded records.
-/

namespace WaveCx

/-! ## Data model (`src/targeted-content.ts`) -/

/-- `presentationType` enum of a targeted content item. -/
inductive PresentationType
  | popup
  | buttonTriggered
  deriving DecidableEq, Repr

/-- A targeted content item (`TargetedContent` in `src/targeted-content.ts`),
restricted to the fields the state machine inspects: `triggerPoint`,
`presentationType` and `viewUrl`.  The visual configuration fields are
opaque pass-through data. -/
structure TargetedContent where
  triggerPoint : String
  presentationType : PresentationType
  viewUrl : String
  deriving DecidableEq, Repr

/-- Result of a targeted-content exchange:
`{ sessionToken?, expiresIn?, content }`. -/
structure TargetedContentResult where
  sessionToken : Option String
  expiresIn : Option Nat
  content : List TargetedContent
  deriving DecidableEq, Repr

/-! ## URL validation

The provider calls `new URL(url)` and inspects `parsed.protocol`.  We
model the part of the WHATWG URL parser this relies on: the scheme is
the (non-empty) prefix before the first `:`, made of an ASCII letter
followed by letters, digits, `+`, `-` or `.`; the `protocol` getter
returns it lower-cased with a trailing `:`.  A string with no such
prefix makes the constructor throw, modelled as `none`. -/

/-- Characters allowed after the first character of a URL scheme. -/
def isSchemeChar (c : Char) : Bool :=
  c.isAlphanum || c = '+' || c = '-' || c = '.'

/-- The characters strictly before the first `:`, or `none` when the
string contains no `:` (the `new URL` constructor throws). -/
def takeScheme : List Char → Option (List Char)
  | [] => none
  | c :: cs => if c = ':' then some [] else (takeScheme cs).map (c :: ·)

/-- Model of `new URL(url).protocol`: `none` when construction throws,
otherwise the lower-cased scheme with a trailing colon. -/
def parseUrlProtocol (url : String) : Option String :=
  match takeScheme url.data with
  | none => none
  | some [] => none
  | some (c :: cs) =>
    if c.isAlpha && cs.all isSchemeChar then
      some (String.mk ((c :: cs).map Char.toLower) ++ ":")
    else none

/-- `isValidContentUrl` from `src/provider.tsx`: only `http:` and
`https:` protocols are accepted; a URL that fails to parse is
rejected. -/
def isValidContentUrl (url : String) : Bool :=
  match parseUrlProtocol url with
  | none => false
  | some p => p = "https:" || p = "http:"

/-- The two-argument `isValidContentUrl` of the mock-mode provider
revision: in mock mode a `data:` URL is additionally accepted. -/
def isValidContentUrlMock (url : String) (mockModeEnabled : Bool) : Bool :=
  match parseUrlProtocol url with
  | none => false
  | some p =>
    if mockModeEnabled && p = "data:" then true
    else p = "https:" || p = "http:"

/-! ## Retry executor (`src/retry.ts`)

`retryWithBackoff` is embedded as a pure function from an
attempt-indexed outcome oracle `fn : Nat → Except ε α` (attempt numbers
start at 1, as in the source's `for` loop) to the overall result plus
an execution trace: how many times `fn` was invoked and which delays
were slept between attempts.  The JavaScript `multiplier` is a float;
the configurations this development reasons about use integral
multipliers, for which JavaScript float arithmetic is exact, so the
multiplier is carried as a natural number. -/

/-- `RetryConfig` from `src/retry.ts`; delays are in milliseconds. -/
structure RetryConfig where
  maxAttempts : Nat
  initialDelay : Nat
  maxDelay : Nat
  multiplier : Nat
  deriving DecidableEq, Repr

/-- `defaultRetryConfig`: 3 attempts, 1s initial delay, 32s cap,
multiplier 2. -/
def defaultRetryConfig : RetryConfig :=
  { maxAttempts := 3, initialDelay := 1000, maxDelay := 32000, multiplier := 2 }

deriving instance DecidableEq for Except

/-- Observable outcome of a `retryWithBackoff` run: the value returned
(or the error re-thrown; `Except.error none` is the `undefined`
`lastError` thrown when `maxAttempts = 0` and the loop body never
runs), the number of invocations of the wrapped operation, and the
list of back-off delays slept, in order. -/
structure RetryTrace (ε α : Type) where
  result : Except (Option ε) α
  calls : Nat
  delays : List Nat
  deriving DecidableEq, Repr

/-- The `for` loop of `retryWithBackoff`, by recursion on the number of
attempts remaining.  `attempt` is the 1-based attempt counter and
`delay` the current back-off delay; on a failure that is not the final
attempt the loop sleeps `delay` and continues with
`min (delay * multiplier) maxDelay`. -/
def retryAux (fn : Nat → Except ε α) (cfg : RetryConfig) :
    Nat → Nat → Nat → RetryTrace ε α
  | 0, _, _ => { result := Except.error none, calls := 0, delays := [] }
  | remaining + 1, attempt, delay =>
    match fn attempt with
    | Except.ok a => { result := Except.ok a, calls := 1, delays := [] }
    | Except.error e =>
      if remaining = 0 then
        { result := Except.error (some e), calls := 1, delays := [] }
      else
        let rest := retryAux fn cfg remaining (attempt + 1)
          (min (delay * cfg.multiplier) cfg.maxDelay)
        { result := rest.result, calls := rest.calls + 1, delays := delay :: rest.delays }

/-- `retryWithBackoff(fn, config)`: run the loop starting at attempt 1
with the configured initial delay. -/
def retryWithBackoff (fn : Nat → Except ε α) (cfg : RetryConfig) : RetryTrace ε α :=
  retryAux fn cfg cfg.maxAttempts 1 cfg.initialDelay

/-! ## Session store (`src/sessions.ts`)

The page-scoped `sessionStorage` entries under `_wcx_st` /
`_wcx_st_exp` and the in-memory fallback module variables are gathered
in one record; `storageAvailable` models whether `sessionStorage`
operations throw (private browsing). -/

/-- State of the session store: the two persistent entries, the two
in-memory fallback cells, and whether persistent storage is usable. -/
structure SessionStore where
  storageAvailable : Bool
  storedToken : Option String
  storedExpiration : Option Nat
  inMemoryToken : Option String
  inMemoryExpiration : Option Nat
  deriving DecidableEq, Repr

/-- `storeSessionToken(token, expiresIn)` at instant `now`: computes the
absolute expiration `now + expiresIn * 1000` and writes both entries,
falling back to the in-memory cells when storage throws. -/
def storeSessionToken (s : SessionStore) (now : Nat) (token : String)
    (expiresIn : Nat) : SessionStore :=
  let expirationDate := now + expiresIn * 1000
  if s.storageAvailable then
    { s with storedToken := some token, storedExpiration := some expirationDate }
  else
    { s with inMemoryToken := some token, inMemoryExpiration := some expirationDate }

/-- `clearSessionToken()`: always clears the in-memory cells, and clears
the storage entries when storage is usable. -/
def clearSessionToken (s : SessionStore) : SessionStore :=
  let s' := { s with inMemoryToken := none, inMemoryExpiration := none }
  if s'.storageAvailable then
    { s' with storedToken := none, storedExpiration := none }
  else s'

/-- `readSessionToken()` at instant `now`: returns the stored token only
while the stored expiration lies strictly in the future (a missing
expiration entry parses as `new Date()` = `now`, hence counts as
expired); an expired entry is cleared as a side effect and `null` is
returned.  When storage throws, the same logic runs against the
in-memory cells.  Returns the read result paired with the updated
store state. -/
def readSessionToken (s : SessionStore) (now : Nat) :
    Option String × SessionStore :=
  if s.storageAvailable then
    let expirationDate := s.storedExpiration.getD now
    if now < expirationDate then (s.storedToken, s)
    else (none, clearSessionToken s)
  else
    match s.inMemoryExpiration with
    | some exp =>
      if now < exp then (s.inMemoryToken, s)
      else (none, { s with inMemoryToken := none, inMemoryExpiration := none })
    | none => (none, { s with inMemoryToken := none, inMemoryExpiration := none })

/-! ## Content fetcher (`src/targeted-content.ts`)

`composeFireTargetedContentEventViaApi` builds a fetcher from an API
base URL and an optional retry wrapper.  The network is abstracted as
an attempt-indexed oracle: for each attempt number, either the `fetch`
promise rejects (a transport failure, carrying its message) or it
resolves to a response with an `ok` flag, a status and a parsed body. -/

/-- Outcome of one `fetch` call: rejection with a message, or a settled
HTTP response. -/
structure ApiResponse (β : Type) where
  ok : Bool
  status : Nat
  body : β
  deriving DecidableEq, Repr

/-- The error thrown out of one `makeRequest` attempt: the transport
rejection itself, or the `Error` constructed for a non-2xx response
(which carries the status). -/
inductive ApiError
  | transport (msg : String)
  | httpStatus (status : Nat)
  deriving DecidableEq, Repr

/-- The inner `makeRequest` closure: performs the `fetch`, throws on a
response with `ok = false` (`API request failed with status ...`), and
returns the parsed body otherwise. -/
def makeRequest (attempt : Except String (ApiResponse β)) : Except ApiError β :=
  match attempt with
  | Except.error msg => Except.error (ApiError.transport msg)
  | Except.ok r =>
    if r.ok then Except.ok r.body
    else Except.error (ApiError.httpStatus r.status)

/-- The result `{ content: [] }` returned by the no-retry fallback when
`makeRequest` throws. -/
def emptyContentResult : TargetedContentResult :=
  { sessionToken := none, expiresIn := none, content := [] }

/-- The fetcher built by `composeFireTargetedContentEventViaApi`.  With
a retry wrapper configured (`retryCfg = some cfg`) each attempt is run
through `retryWithBackoff` and the outcome — success or the final
re-thrown error — propagates to the caller.  Without one, a single
attempt is made and any thrown error is swallowed into
`{ content: [] }`. -/
def fireTargetedContentEventViaApi (retryCfg : Option RetryConfig)
    (attempts : Nat → Except String (ApiResponse TargetedContentResult)) :
    Except (Option ApiError) TargetedContentResult :=
  match retryCfg with
  | some cfg => (retryWithBackoff (fun i => makeRequest (attempts i)) cfg).result
  | none =>
    match makeRequest (attempts 1) with
    | Except.ok r => Except.ok r
    | Except.error _ => Except.ok emptyContentResult

/-! ## The session/content state machine (`src/provider.tsx`)

`handleEvent` is embedded as a step function on an explicit state
record.  The single `await` sits inside the `session-started` branch,
so that branch is split into a *begin* action (clear the dismissal
callback and the cache, set the loading flag, issue the fetch — the
three sub-paths of the source perform identical cache/loading/queue
transitions, differing only in which request they send and in session
token persistence, which lives in `SessionStore`) and a *complete*
action carrying the fetch outcome (`some content` when it resolved,
`none` when it rejected and the `catch` swallowed the error).  All
other branches of `handleEvent`, and the `dismissContent` callback,
are atomic.

Only `trigger-point` events are ever pushed onto the queue, so queue
entries are represented by the payload of that variant.  Queue
draining awaits `handleEvent` recursively on each entry; a queued
`trigger-point` runs its synchronous branch (the loading flag is false
throughout the drain), so the drain is a left fold of the
trigger-point step.

Two ghost fields extend the state for specification purposes only:
`presentedPopups` records the popup items presented since the cache
was last cleared or repopulated, and `processedTriggerPoints` records
the trigger points whose content lookup actually ran (the non-queueing
branch). -/

/-- The public `Event` union of `src/provider.tsx`.  Dismissal
callbacks are identified by an opaque tag. -/
inductive Event
  | sessionStarted (userId : String) (userIdVerification : Option String)
  | sessionEnded
  | triggerPoint (triggerPoint : String) (onContentDismissed : Option Nat)
  | userTriggeredContent (onContentDismissed : Option Nat)
  deriving DecidableEq, Repr

/-- A queued `trigger-point` event: its trigger point and dismissal
callback (the only event variant the code ever queues). -/
structure QueuedTriggerPoint where
  triggerPoint : String
  callback : Option Nat
  deriving DecidableEq, Repr

/-- The provider props the state machine consults. -/
structure ProviderConfig where
  disablePopupContent : Bool
  deriving DecidableEq, Repr

/-- The mutable state owned by one `WaveCxProvider` instance:
`stateRef` (loading flag, event queue, content cache), the four
presentation-state hooks, the stored dismissal callback, and the two
ghost histories. -/
structure ProviderState where
  isContentLoading : Bool
  eventQueue : List QueuedTriggerPoint
  contentCache : List TargetedContent
  activePopupContent : Option TargetedContent
  activeUserTriggeredContent : Option TargetedContent
  isUserTriggeredContentShown : Bool
  onContentDismissedCallback : Option Nat
  presentedPopups : List TargetedContent
  processedTriggerPoints : List String
  deriving DecidableEq, Repr

/-- The state of a freshly mounted provider. -/
def initialProviderState : ProviderState :=
  { isContentLoading := false
    eventQueue := []
    contentCache := []
    activePopupContent := none
    activeUserTriggeredContent := none
    isUserTriggeredContentShown := false
    onContentDismissedCallback := none
    presentedPopups := []
    processedTriggerPoints := [] }

/-- The filter selecting popup items for a trigger point
(`c.triggerPoint === event.triggerPoint && c.presentationType === 'popup'`). -/
def popupMatches (tp : String) (cache : List TargetedContent) : List TargetedContent :=
  cache.filter fun c => c.triggerPoint == tp && c.presentationType == PresentationType.popup

/-- The filter the code uses to drop served popup items
(`c.triggerPoint !== event.triggerPoint || c.presentationType !== 'popup'`). -/
def removePopupMatches (tp : String) (cache : List TargetedContent) : List TargetedContent :=
  cache.filter fun c => !(c.triggerPoint == tp) || !(c.presentationType == PresentationType.popup)

/-- The filter selecting button-triggered items for a trigger point. -/
def buttonMatches (tp : String) (cache : List TargetedContent) : List TargetedContent :=
  cache.filter fun c => c.triggerPoint == tp && c.presentationType == PresentationType.buttonTriggered

/-- The `trigger-point` branch of `handleEvent`: clear the active
content and record the dismissal callback; while loading, append the
event to the queue and return; otherwise — unless popups are disabled —
present the first URL-valid popup match and drop every popup match
from the cache, then mark the first URL-valid button-triggered match
as available (leaving it cached). -/
def triggerPointStep (cfg : ProviderConfig) (s : ProviderState) (tp : String)
    (cb : Option Nat) : ProviderState :=
  let s0 := { s with
    activePopupContent := none
    activeUserTriggeredContent := none
    onContentDismissedCallback := cb }
  if s0.isContentLoading then
    { s0 with eventQueue := s0.eventQueue ++ [{ triggerPoint := tp, callback := cb }] }
  else
    let s0 := { s0 with processedTriggerPoints := s0.processedTriggerPoints ++ [tp] }
    let s1 :=
      if cfg.disablePopupContent then s0
      else
        let s1a :=
          match (popupMatches tp s0.contentCache).head? with
          | some popupContent =>
            if isValidContentUrl popupContent.viewUrl then
              { s0 with
                activePopupContent := some popupContent
                presentedPopups := popupContent :: s0.presentedPopups }
            else s0
          | none => s0
        { s1a with contentCache := removePopupMatches tp s1a.contentCache }
    match (buttonMatches tp s1.contentCache).head? with
    | some userTriggeredContent =>
      if isValidContentUrl userTriggeredContent.viewUrl then
        { s1 with activeUserTriggeredContent := some userTriggeredContent }
      else s1
    | none => s1

/-- One pass of `processQueuedEvents`' loop body over an explicit list
of queued events, left to right. -/
def drainQueue (cfg : ProviderConfig) (s : ProviderState)
    (queue : List QueuedTriggerPoint) : ProviderState :=
  queue.foldl (fun st q => triggerPointStep cfg st q.triggerPoint q.callback) s

/-- `processQueuedEvents`: snapshot the queue, empty it, then replay
each snapshotted event through `handleEvent` in arrival order. -/
def processQueuedEvents (cfg : ProviderConfig) (s : ProviderState) : ProviderState :=
  drainQueue cfg { s with eventQueue := [] } s.eventQueue

/-- The synchronous prefix of the `session-started` branch, up to the
awaited fetch: clear the dismissal callback and the cache, set
`isContentLoading`.  (Ghost: a cache clear starts a fresh popup
presentation history.) -/
def sessionStartBeginStep (s : ProviderState) : ProviderState :=
  { s with
    onContentDismissedCallback := none
    contentCache := []
    presentedPopups := []
    isContentLoading := true }

/-- The continuation of the `session-started` branch once the fetch
settles: on success the cache is replaced wholesale with the response
content (ghost: a fresh population resets the presentation history);
on failure the `catch` swallows the error and the cache is left as it
was.  Either way the loading flag is dropped and the queue drained. -/
def sessionStartCompleteStep (cfg : ProviderConfig) (s : ProviderState)
    (outcome : Option (List TargetedContent)) : ProviderState :=
  let s1 :=
    match outcome with
    | some content => { s with contentCache := content, presentedPopups := [] }
    | none => s
  processQueuedEvents cfg { s1 with isContentLoading := false }

/-- The `session-ended` branch: clear the dismissal callback, the cache
and both active content slots.  (`clearSessionToken` acts on the
`SessionStore`, modelled separately.)  The queue, the loading flag and
`isUserTriggeredContentShown` are untouched. -/
def sessionEndedStep (s : ProviderState) : ProviderState :=
  { s with
    onContentDismissedCallback := none
    contentCache := []
    presentedPopups := []
    activePopupContent := none
    activeUserTriggeredContent := none }

/-- The `user-triggered-content` branch: reveal the previously
identified button-triggered content and record the dismissal
callback. -/
def userTriggeredContentStep (s : ProviderState) (cb : Option Nat) : ProviderState :=
  { s with isUserTriggeredContentShown := true, onContentDismissedCallback := cb }

/-- The `dismissContent` callback invoked by the presentation surface:
hide user-triggered content and clear the active popup.  (The remote
content readiness flag it also resets belongs to the presentation
surface and is not part of this state.) -/
def dismissContentStep (s : ProviderState) : ProviderState :=
  { s with isUserTriggeredContentShown := false, activePopupContent := none }

/-- The atomic actions of the machine: the four event branches (with
`session-started` split at its suspension point) and dismissal. -/
inductive PAction
  | sessionStartBegin
  | sessionStartComplete (outcome : Option (List TargetedContent))
  | sessionEnded
  | userTriggeredContent (callback : Option Nat)
  | triggerPoint (triggerPoint : String) (callback : Option Nat)
  | dismissContent
  deriving DecidableEq, Repr

/-- One atomic step of the provider. -/
def providerStep (cfg : ProviderConfig) (s : ProviderState) : PAction → ProviderState
  | PAction.sessionStartBegin => sessionStartBeginStep s
  | PAction.sessionStartComplete outcome => sessionStartCompleteStep cfg s outcome
  | PAction.sessionEnded => sessionEndedStep s
  | PAction.userTriggeredContent cb => userTriggeredContentStep s cb
  | PAction.triggerPoint tp cb => triggerPointStep cfg s tp cb
  | PAction.dismissContent => dismissContentStep s

/-- Run a sequence of atomic actions from a state. -/
def runProvider (cfg : ProviderConfig) (s : ProviderState)
    (actions : List PAction) : ProviderState :=
  actions.foldl (providerStep cfg) s

/-- The derived `presentedContent` value: the active popup, or — when
user-triggered content has been revealed — the active button-triggered
content. -/
def presentedContent (s : ProviderState) : Option TargetedContent :=
  match s.activePopupContent with
  | some c => some c
  | none =>
    if s.isUserTriggeredContentShown then s.activeUserTriggeredContent else none

/-- `checkPopupContent`, exposed to consumers as
`hasPopupContentForTriggerPoint`: does the cache hold a popup item for
the trigger point? -/
def checkPopupContent (s : ProviderState) (tp : String) : Bool :=
  s.contentCache.any fun c =>
    c.triggerPoint == tp && c.presentationType == PresentationType.popup

/-! ## The consumer-facing accessor (`useWaveCx`)

`WaveCxContext` is created with a non-null default value, and React's
`useContext` returns that default when no provider is mounted above
the caller.  `useWaveCx` guards with `if (!context)`; the embedding
makes the JavaScript truthiness of the consulted value explicit. -/

/-- The context interface: `handleEvent`,
`hasPopupContentForTriggerPoint` and `hasUserTriggeredContent`. -/
structure WaveCxContextInterface where
  handleEvent : Event → Unit
  hasPopupContentForTriggerPoint : String → Bool
  hasUserTriggeredContent : Bool

/-- The default value passed to `createContext`: a no-op handler, a
check that always answers `false`, and no user-triggered content. -/
def waveCxContextDefault : WaveCxContextInterface :=
  { handleEvent := fun _ => ()
    hasPopupContentForTriggerPoint := fun _ => false
    hasUserTriggeredContent := false }

/-- React's `useContext(WaveCxContext)`: the value supplied by the
nearest mounted provider, or the `createContext` default when the
caller has no provider above it (`providerValue = none`). -/
def useContextWaveCx : Option WaveCxContextInterface → WaveCxContextInterface
  | some v => v
  | none => waveCxContextDefault

/-- JavaScript truthiness of the consulted context value: any object is
truthy, so `!context` is `false` for every interface value. -/
def jsObjectIsFalsy (_ : WaveCxContextInterface) : Bool := false

/-- `useWaveCx`: read the context and throw when the value is falsy. -/
def useWaveCx (providerValue : Option WaveCxContextInterface) :
    Except String WaveCxContextInterface :=
  let context := useContextWaveCx providerValue
  if jsObjectIsFalsy context then
    Except.error "useWaveCx must be used in a WaveCx context provider"
  else
    Except.ok context

/-! ## Theorems

The helper lemmas, the claimed properties and their witnesses. -/


/-- One failing non-final attempt: record the slept delay and recurse
with the backed-off delay. -/
theorem retryAux_succ_error {ε α : Type} (fn : Nat → Except ε α) (cfg : RetryConfig)
    {attempt delay remaining : Nat} {e : ε} (h : fn attempt = Except.error e)
    (hr : remaining ≠ 0) :
    retryAux fn cfg (remaining + 1) attempt delay
      = { result := (retryAux fn cfg remaining (attempt + 1)
            (min (delay * cfg.multiplier) cfg.maxDelay)).result
          calls := (retryAux fn cfg remaining (attempt + 1)
            (min (delay * cfg.multiplier) cfg.maxDelay)).calls + 1
          delays := delay :: (retryAux fn cfg remaining (attempt + 1)
            (min (delay * cfg.multiplier) cfg.maxDelay)).delays } := by
  simp [retryAux, h, hr]

/-- A successful attempt stops the loop at once. -/
theorem retryAux_succ_ok {ε α : Type} (fn : Nat → Except ε α) (cfg : RetryConfig)
    {attempt delay remaining : Nat} {a : α} (h : fn attempt = Except.ok a) :
    retryAux fn cfg (remaining + 1) attempt delay
      = { result := Except.ok a, calls := 1, delays := [] } := by
  simp [retryAux, h]

/-- A failing final attempt re-throws its error without sleeping. -/
theorem retryAux_last_error {ε α : Type} (fn : Nat → Except ε α) (cfg : RetryConfig)
    {attempt delay : Nat} {e : ε} (h : fn attempt = Except.error e) :
    retryAux fn cfg (0 + 1) attempt delay
      = { result := Except.error (some e), calls := 1, delays := [] } := by
  simp [retryAux, h]

/-- When every attempt from `attempt` through `attempt + remaining`
fails, the retry loop re-throws the error of the final attempt. -/
theorem retryAux_all_fail {ε α : Type} (fn : Nat → Except ε α) (cfg : RetryConfig)
    (errs : Nat → ε) :
    ∀ (remaining attempt delay : Nat),
      (∀ i, attempt ≤ i → i ≤ attempt + remaining → fn i = Except.error (errs i)) →
      (retryAux fn cfg (remaining + 1) attempt delay).result
        = Except.error (some (errs (attempt + remaining)))
  | 0, attempt, delay, hfail => by
    have h := hfail attempt le_rfl (by omega)
    simp [retryAux_last_error fn cfg h]
  | remaining + 1, attempt, delay, hfail => by
    have h := hfail attempt le_rfl (by omega)
    have ih := retryAux_all_fail fn cfg errs remaining (attempt + 1)
      (min (delay * cfg.multiplier) cfg.maxDelay)
      (fun i h1 h2 => hfail i (by omega) (by omega))
    have harith : attempt + 1 + remaining = attempt + (remaining + 1) := by omega
    rw [harith] at ih
    rw [retryAux_succ_error fn cfg h (Nat.succ_ne_zero remaining)]
    simpa using ih

/-- Claim C5: with configuration `{maxAttempts := 3, initialDelay := 1000,
maxDelay := 32000, multiplier := 2}` and an operation that fails on its
first two invocations and succeeds on the third, `retryWithBackoff`
invokes the operation exactly 3 times, sleeps 1000ms between attempts 1
and 2 and 2000ms between attempts 2 and 3, and returns the successful
result. -/
theorem retry_fails_twice_then_succeeds {ε α : Type} (fn : Nat → Except ε α)
    (e1 e2 : ε) (a : α) (h1 : fn 1 = Except.error e1) (h2 : fn 2 = Except.error e2)
    (h3 : fn 3 = Except.ok a) :
    retryWithBackoff fn
        { maxAttempts := 3, initialDelay := 1000, maxDelay := 32000, multiplier := 2 }
      = { result := Except.ok a, calls := 3, delays := [1000, 2000] } := by
  have step1 : retryAux fn
      { maxAttempts := 3, initialDelay := 1000, maxDelay := 32000, multiplier := 2 } 3 1 1000
      = { result := (retryAux fn
            { maxAttempts := 3, initialDelay := 1000, maxDelay := 32000, multiplier := 2 }
            2 2 2000).result
          calls := (retryAux fn
            { maxAttempts := 3, initialDelay := 1000, maxDelay := 32000, multiplier := 2 }
            2 2 2000).calls + 1
          delays := 1000 :: (retryAux fn
            { maxAttempts := 3, initialDelay := 1000, maxDelay := 32000, multiplier := 2 }
            2 2 2000).delays } := by
    rw [show (3 : Nat) = 2 + 1 from rfl, retryAux_succ_error fn _ h1 (by omega)]
    norm_num
  have step2 : retryAux fn
      { maxAttempts := 3, initialDelay := 1000, maxDelay := 32000, multiplier := 2 } 2 2 2000
      = { result := (retryAux fn
            { maxAttempts := 3, initialDelay := 1000, maxDelay := 32000, multiplier := 2 }
            1 3 4000).result
          calls := (retryAux fn
            { maxAttempts := 3, initialDelay := 1000, maxDelay := 32000, multiplier := 2 }
            1 3 4000).calls + 1
          delays := 2000 :: (retryAux fn
            { maxAttempts := 3, initialDelay := 1000, maxDelay := 32000, multiplier := 2 }
            1 3 4000).delays } := by
    rw [show (2 : Nat) = 1 + 1 from rfl, retryAux_succ_error fn _ h2 (by omega)]
    norm_num
  have step3 : retryAux fn
      { maxAttempts := 3, initialDelay := 1000, maxDelay := 32000, multiplier := 2 } 1 3 4000
      = { result := Except.ok a, calls := 1, delays := [] } := by
    rw [show (1 : Nat) = 0 + 1 from rfl, retryAux_succ_ok fn _ h3]
  show retryAux fn _ 3 1 1000 = _
  rw [step1, step2, step3]


/-- The cache once the popup phase of a trigger-point event has run:
unchanged when popups are disabled, otherwise with every popup match
for the trigger point removed. -/
def cacheAfterPopupHandling (cfg : ProviderConfig) (tp : String)
    (cache : List TargetedContent) : List TargetedContent :=
  if cfg.disablePopupContent then cache else removePopupMatches tp cache

/-- The popup item a trigger-point event presents, if any: the first
popup match with a valid URL, and nothing when popups are disabled. -/
def popupServed (cfg : ProviderConfig) (tp : String)
    (cache : List TargetedContent) : Option TargetedContent :=
  if cfg.disablePopupContent then none
  else
    match (popupMatches tp cache).head? with
    | some p => if isValidContentUrl p.viewUrl then some p else none
    | none => none

/-- The button-triggered item a trigger-point event marks available, if
any: the first button-triggered match with a valid URL. -/
def buttonServed (tp : String) (cache : List TargetedContent) : Option TargetedContent :=
  match (buttonMatches tp cache).head? with
  | some b => if isValidContentUrl b.viewUrl then some b else none
  | none => none

/-- While loading, a trigger-point event only clears the active content,
records the callback and appends itself to the queue. -/
theorem triggerPointStep_loading (cfg : ProviderConfig) (s : ProviderState)
    (tp : String) (cb : Option Nat) (hl : s.isContentLoading = true) :
    triggerPointStep cfg s tp cb = { s with
      activePopupContent := none
      activeUserTriggeredContent := none
      onContentDismissedCallback := cb
      eventQueue := s.eventQueue ++ [{ triggerPoint := tp, callback := cb }] } := by
  simp [triggerPointStep, hl]

/-- Outside of loading, a trigger-point event serves the popup and
button-triggered matches and removes the popup matches from the
cache. -/
theorem triggerPointStep_not_loading (cfg : ProviderConfig) (s : ProviderState)
    (tp : String) (cb : Option Nat) (hl : s.isContentLoading = false) :
    triggerPointStep cfg s tp cb = { s with
      activePopupContent := popupServed cfg tp s.contentCache
      activeUserTriggeredContent :=
        buttonServed tp (cacheAfterPopupHandling cfg tp s.contentCache)
      onContentDismissedCallback := cb
      contentCache := cacheAfterPopupHandling cfg tp s.contentCache
      presentedPopups :=
        (match popupServed cfg tp s.contentCache with
          | some p => p :: s.presentedPopups
          | none => s.presentedPopups)
      processedTriggerPoints := s.processedTriggerPoints ++ [tp] } := by
  unfold triggerPointStep popupServed buttonServed cacheAfterPopupHandling
  by_cases hd : cfg.disablePopupContent
  · simp only [hl, hd, Bool.false_eq_true, if_false, if_true]
    cases hb : (buttonMatches tp s.contentCache).head? with
    | none => simp
    | some b => by_cases hv : isValidContentUrl b.viewUrl <;> simp [hv]
  · simp only [hl, hd, Bool.false_eq_true, if_false, if_true]
    cases hp : (popupMatches tp s.contentCache).head? with
    | none =>
      simp only []
      cases hb : (buttonMatches tp (removePopupMatches tp s.contentCache)).head? with
      | none => simp
      | some b => by_cases hv : isValidContentUrl b.viewUrl <;> simp [hv]
    | some p =>
      by_cases hv : isValidContentUrl p.viewUrl
      · simp only [hv, if_true]
        cases hb : (buttonMatches tp (removePopupMatches tp s.contentCache)).head? with
        | none => simp
        | some b => by_cases hv2 : isValidContentUrl b.viewUrl <;> simp [hv2]
      · simp only [hv, Bool.false_eq_true, if_false]
        cases hb : (buttonMatches tp (removePopupMatches tp s.contentCache)).head? with
        | none => simp
        | some b => by_cases hv2 : isValidContentUrl b.viewUrl <;> simp [hv2]

/-- A head of a filtered list is a member satisfying the predicate. -/
theorem head?_filter_spec {p : TargetedContent → Bool} {l : List TargetedContent}
    {a : TargetedContent} (h : (l.filter p).head? = some a) : a ∈ l ∧ p a = true :=
  List.mem_filter.mp (List.mem_of_mem_head? (by simp [h]))

/-- What being a popup match head means. -/
theorem popupMatches_head_spec {tp : String} {cache : List TargetedContent}
    {p : TargetedContent} (h : (popupMatches tp cache).head? = some p) :
    p ∈ cache ∧ p.triggerPoint = tp ∧ p.presentationType = PresentationType.popup := by
  have h' := head?_filter_spec (p := fun c =>
    c.triggerPoint == tp && c.presentationType == PresentationType.popup) h
  have h2 := h'.2
  simp at h2
  exact ⟨h'.1, h2.1, h2.2⟩

/-- What being a button-triggered match head means. -/
theorem buttonMatches_head_spec {tp : String} {cache : List TargetedContent}
    {b : TargetedContent} (h : (buttonMatches tp cache).head? = some b) :
    b ∈ cache ∧ b.triggerPoint = tp ∧
      b.presentationType = PresentationType.buttonTriggered := by
  have h' := head?_filter_spec (p := fun c =>
    c.triggerPoint == tp && c.presentationType == PresentationType.buttonTriggered) h
  have h2 := h'.2
  simp at h2
  exact ⟨h'.1, h2.1, h2.2⟩

/-- Membership in the popup-removal filter. -/
theorem mem_removePopupMatches {tp : String} {cache : List TargetedContent}
    {c : TargetedContent} :
    c ∈ removePopupMatches tp cache ↔
      c ∈ cache ∧ (c.triggerPoint ≠ tp ∨ c.presentationType ≠ PresentationType.popup) := by
  simp [removePopupMatches, List.mem_filter]

/-- Button-triggered items survive popup removal. -/
theorem button_mem_removePopupMatches {tp : String} {cache : List TargetedContent}
    {b : TargetedContent} (hmem : b ∈ cache)
    (hbt : b.presentationType = PresentationType.buttonTriggered) :
    b ∈ removePopupMatches tp cache := by
  rw [mem_removePopupMatches]
  exact ⟨hmem, Or.inr (by simp [hbt])⟩

/-- Popup removal does not change which button-triggered items match. -/
theorem buttonMatches_removePopupMatches (tp tp' : String)
    (cache : List TargetedContent) :
    buttonMatches tp (removePopupMatches tp' cache) = buttonMatches tp cache := by
  unfold buttonMatches removePopupMatches
  induction cache with
  | nil => rfl
  | cons c cs ih =>
    by_cases hb : (c.triggerPoint == tp && c.presentationType == PresentationType.buttonTriggered) = true
    · have hb' := hb
      simp at hb'
      have hbt : c.presentationType = PresentationType.buttonTriggered := hb'.2
      have hr : (!(c.triggerPoint == tp') || !(c.presentationType == PresentationType.popup)) = true := by
        simp [hbt]
      simp [List.filter_cons, hb, hr, ih]
    · by_cases hr : (!(c.triggerPoint == tp') || !(c.presentationType == PresentationType.popup)) = true
      · simp [List.filter_cons, hb, hr, ih]
      · simp [List.filter_cons, hb, hr, ih]

/-- The popup phase does not change which button-triggered items match. -/
theorem buttonMatches_cacheAfterPopupHandling (cfg : ProviderConfig) (tp tp' : String)
    (cache : List TargetedContent) :
    buttonMatches tp (cacheAfterPopupHandling cfg tp' cache) = buttonMatches tp cache := by
  unfold cacheAfterPopupHandling
  by_cases hd : cfg.disablePopupContent <;> simp [hd, buttonMatches_removePopupMatches]

/-- The popup phase does not change which button-triggered item is served. -/
theorem buttonServed_cacheAfterPopupHandling (cfg : ProviderConfig) (tp tp' : String)
    (cache : List TargetedContent) :
    buttonServed tp (cacheAfterPopupHandling cfg tp' cache) = buttonServed tp cache := by
  unfold buttonServed
  rw [buttonMatches_cacheAfterPopupHandling]

/-- Membership in the cache after the popup phase implies membership
before it. -/
theorem mem_of_mem_cacheAfterPopupHandling {cfg : ProviderConfig} {tp : String}
    {cache : List TargetedContent} {c : TargetedContent}
    (h : c ∈ cacheAfterPopupHandling cfg tp cache) : c ∈ cache := by
  unfold cacheAfterPopupHandling at h
  by_cases hd : cfg.disablePopupContent
  · simpa [hd] using h
  · exact (mem_removePopupMatches.mp (by simpa [hd] using h)).1

/-- What a served popup is: popups enabled, a cached popup match for the
trigger point, with a valid URL. -/
theorem popupServed_spec {cfg : ProviderConfig} {tp : String}
    {cache : List TargetedContent} {p : TargetedContent}
    (h : popupServed cfg tp cache = some p) :
    cfg.disablePopupContent = false ∧ p ∈ cache ∧ p.triggerPoint = tp ∧
    p.presentationType = PresentationType.popup ∧ isValidContentUrl p.viewUrl = true := by
  unfold popupServed at h
  by_cases hd : cfg.disablePopupContent
  · simp [hd] at h
  · rcases hp : (popupMatches tp cache).head? with _ | q
    · simp [hd, hp] at h
    · rw [if_neg hd, hp] at h
      by_cases hv : isValidContentUrl q.viewUrl
      · simp [hv] at h
        subst h
        obtain ⟨h1, h2, h3⟩ := popupMatches_head_spec hp
        exact ⟨by simpa using hd, h1, h2, h3, hv⟩
      · simp [hv] at h
/-- What a served button-triggered item is: a cached button match for
the trigger point with a valid URL. -/
theorem buttonServed_spec {tp : String} {cache : List TargetedContent}
    {b : TargetedContent} (h : buttonServed tp cache = some b) :
    b ∈ cache ∧ b.triggerPoint = tp ∧
    b.presentationType = PresentationType.buttonTriggered ∧
    isValidContentUrl b.viewUrl = true := by
  unfold buttonServed at h
  rcases hb : (buttonMatches tp cache).head? with _ | q
  · simp [hb] at h
  · rw [hb] at h
    by_cases hv : isValidContentUrl q.viewUrl
    · simp [hv] at h
      subst h
      obtain ⟨h1, h2, h3⟩ := buttonMatches_head_spec hb
      exact ⟨h1, h2, h3, hv⟩
    · simp [hv] at h
/-- The single-use invariant: the cache never holds a popup item that
has already been presented since the cache was last cleared or
repopulated. -/
def PopupSingleUseInv (s : ProviderState) : Prop :=
  ∀ c ∈ s.contentCache, c.presentationType = PresentationType.popup →
    c ∉ s.presentedPopups

/-- The URL-safety invariant: any active (presentable) content passed
URL validation. -/
def ValidActiveContentInv (s : ProviderState) : Prop :=
  (∀ c, s.activePopupContent = some c → isValidContentUrl c.viewUrl = true) ∧
  (∀ c, s.activeUserTriggeredContent = some c → isValidContentUrl c.viewUrl = true)

/-- A trigger-point event preserves the single-use invariant. -/
theorem triggerPointStep_popupSingleUse (cfg : ProviderConfig) (s : ProviderState)
    (tp : String) (cb : Option Nat) (h : PopupSingleUseInv s) :
    PopupSingleUseInv (triggerPointStep cfg s tp cb) := by
  by_cases hl : s.isContentLoading
  · rw [triggerPointStep_loading cfg s tp cb hl]
    exact h
  · rw [triggerPointStep_not_loading cfg s tp cb (by simpa using hl)]
    intro c hc hcp
    have hc' : c ∈ cacheAfterPopupHandling cfg tp s.contentCache := hc
    have hmem : c ∈ s.contentCache := mem_of_mem_cacheAfterPopupHandling hc'
    cases hps : popupServed cfg tp s.contentCache with
    | none =>
      simp only [hps]
      exact h c hmem hcp
    | some p =>
      simp only [hps, List.mem_cons, not_or]
      obtain ⟨hd, _, hptp, _, _⟩ := popupServed_spec hps
      have hcache : c ∈ removePopupMatches tp s.contentCache := by
        have := hc'
        unfold cacheAfterPopupHandling at this
        simpa [hd] using this
      have hne : c.triggerPoint ≠ tp := by
        rcases (mem_removePopupMatches.mp hcache).2 with h1 | h2
        · exact h1
        · exact absurd hcp h2
      constructor
      · intro hcp'
        subst hcp'
        exact hne hptp
      · exact h c hmem hcp

/-- A trigger-point event preserves the URL-safety invariant. -/
theorem triggerPointStep_validActive (cfg : ProviderConfig) (s : ProviderState)
    (tp : String) (cb : Option Nat) :
    ValidActiveContentInv (triggerPointStep cfg s tp cb) := by
  by_cases hl : s.isContentLoading
  · rw [triggerPointStep_loading cfg s tp cb hl]
    exact ⟨fun c hc => by simp at hc, fun c hc => by simp at hc⟩
  · rw [triggerPointStep_not_loading cfg s tp cb (by simpa using hl)]
    constructor
    · intro c hc
      exact (popupServed_spec hc).2.2.2.2
    · intro c hc
      exact (buttonServed_spec hc).2.2.2

/-- Draining the queue preserves the single-use invariant. -/
theorem drainQueue_popupSingleUse (cfg : ProviderConfig) :
    ∀ (queue : List QueuedTriggerPoint) (s : ProviderState),
      PopupSingleUseInv s → PopupSingleUseInv (drainQueue cfg s queue)
  | [], _, h => h
  | q :: qs, s, h =>
    drainQueue_popupSingleUse cfg qs _
      (triggerPointStep_popupSingleUse cfg s q.triggerPoint q.callback h)

/-- Draining the queue preserves the URL-safety invariant. -/
theorem drainQueue_validActive (cfg : ProviderConfig) :
    ∀ (queue : List QueuedTriggerPoint) (s : ProviderState),
      ValidActiveContentInv s → ValidActiveContentInv (drainQueue cfg s queue)
  | [], _, h => h
  | q :: qs, s, _ =>
    drainQueue_validActive cfg qs _
      (triggerPointStep_validActive cfg s q.triggerPoint q.callback)

/-- Every atomic action preserves the single-use invariant. -/
theorem providerStep_popupSingleUse (cfg : ProviderConfig) (s : ProviderState)
    (a : PAction) (h : PopupSingleUseInv s) :
    PopupSingleUseInv (providerStep cfg s a) := by
  cases a with
  | sessionStartBegin =>
    intro c hc
    simp [providerStep, sessionStartBeginStep] at hc
  | sessionStartComplete outcome =>
    cases outcome with
    | none =>
      exact drainQueue_popupSingleUse cfg s.eventQueue
        { s with isContentLoading := false, eventQueue := [] } h
    | some content =>
      apply drainQueue_popupSingleUse
      intro c hc hcp hpres
      simp at hpres
  | sessionEnded =>
    intro c hc
    simp [providerStep, sessionEndedStep] at hc
  | userTriggeredContent cb => exact h
  | triggerPoint tp cb => exact triggerPointStep_popupSingleUse cfg s tp cb h
  | dismissContent => exact h

/-- Every atomic action preserves the URL-safety invariant. -/
theorem providerStep_validActive (cfg : ProviderConfig) (s : ProviderState)
    (a : PAction) (h : ValidActiveContentInv s) :
    ValidActiveContentInv (providerStep cfg s a) := by
  cases a with
  | sessionStartBegin => exact h
  | sessionStartComplete outcome =>
    cases outcome with
    | none =>
      exact drainQueue_validActive cfg s.eventQueue
        { s with isContentLoading := false, eventQueue := [] } h
    | some content =>
      exact drainQueue_validActive cfg s.eventQueue
        { s with contentCache := content, presentedPopups := [],
                 isContentLoading := false, eventQueue := [] } h
  | sessionEnded =>
    exact ⟨fun c hc => by simp [providerStep, sessionEndedStep] at hc,
           fun c hc => by simp [providerStep, sessionEndedStep] at hc⟩
  | userTriggeredContent cb => exact h
  | triggerPoint tp cb => exact triggerPointStep_validActive cfg s tp cb
  | dismissContent =>
    exact ⟨fun c hc => by simp [providerStep, dismissContentStep] at hc, h.2⟩

/-- Running any action sequence preserves the single-use invariant. -/
theorem runProvider_popupSingleUse (cfg : ProviderConfig) :
    ∀ (actions : List PAction) (s : ProviderState),
      PopupSingleUseInv s → PopupSingleUseInv (runProvider cfg s actions)
  | [], _, h => h
  | a :: rest, s, h =>
    runProvider_popupSingleUse cfg rest _ (providerStep_popupSingleUse cfg s a h)

/-- Running any action sequence preserves the URL-safety invariant. -/
theorem runProvider_validActive (cfg : ProviderConfig) :
    ∀ (actions : List PAction) (s : ProviderState),
      ValidActiveContentInv s → ValidActiveContentInv (runProvider cfg s actions)
  | [], _, h => h
  | a :: rest, s, h =>
    runProvider_validActive cfg rest _ (providerStep_validActive cfg s a h)

/-- The initial state satisfies the single-use invariant. -/
theorem initial_popupSingleUse : PopupSingleUseInv initialProviderState := by
  intro c hc
  simp [initialProviderState] at hc

/-- The initial state satisfies the URL-safety invariant. -/
theorem initial_validActive : ValidActiveContentInv initialProviderState :=
  ⟨fun c hc => by simp [initialProviderState] at hc,
   fun c hc => by simp [initialProviderState] at hc⟩

/-- Whatever is presented passed URL validation. -/
theorem presentedContent_valid {s : ProviderState} (h : ValidActiveContentInv s)
    {c : TargetedContent} (hp : presentedContent s = some c) :
    isValidContentUrl c.viewUrl = true := by
  unfold presentedContent at hp
  cases hap : s.activePopupContent with
  | some p =>
    rw [hap] at hp
    exact h.1 c (by simpa using hp ▸ hap)
  | none =>
    rw [hap] at hp
    by_cases hsh : s.isUserTriggeredContentShown
    · rw [if_pos hsh] at hp
      exact h.2 c hp
    · rw [if_neg hsh] at hp
      simp at hp
/-- When a trigger-point event (outside of loading) marks a
button-triggered item available, that item is in the resulting cache,
matches the trigger point, and passed URL validation. -/
theorem triggerPointStep_serves_button {cfg : ProviderConfig} {s : ProviderState}
    {tp : String} {cb : Option Nat} {b : TargetedContent}
    (hl : s.isContentLoading = false)
    (hb : (triggerPointStep cfg s tp cb).activeUserTriggeredContent = some b) :
    b ∈ (triggerPointStep cfg s tp cb).contentCache ∧
    b.triggerPoint = tp ∧ b.presentationType = PresentationType.buttonTriggered ∧
    isValidContentUrl b.viewUrl = true := by
  rw [triggerPointStep_not_loading cfg s tp cb hl] at hb ⊢
  have hb' : buttonServed tp (cacheAfterPopupHandling cfg tp s.contentCache) = some b := hb
  obtain ⟨h1, h2, h3, h4⟩ := buttonServed_spec hb'
  exact ⟨h1, h2, h3, h4⟩

/-- Serving a button-triggered item leaves it servable: firing the same
trigger point again from the resulting state serves the same item. -/
theorem triggerPointStep_refires_button {cfg : ProviderConfig} {s : ProviderState}
    {tp : String} {cb cb' : Option Nat} {b : TargetedContent}
    (hl : s.isContentLoading = false)
    (hb : (triggerPointStep cfg s tp cb).activeUserTriggeredContent = some b) :
    (triggerPointStep cfg (triggerPointStep cfg s tp cb) tp cb').activeUserTriggeredContent
      = some b := by
  have hl' : (triggerPointStep cfg s tp cb).isContentLoading = false := by
    rw [triggerPointStep_not_loading cfg s tp cb hl]
    exact hl
  rw [triggerPointStep_not_loading cfg _ tp cb' hl']
  show buttonServed tp (cacheAfterPopupHandling cfg tp
    (triggerPointStep cfg s tp cb).contentCache) = some b
  rw [triggerPointStep_not_loading cfg s tp cb hl] at hb ⊢
  show buttonServed tp (cacheAfterPopupHandling cfg tp
    (cacheAfterPopupHandling cfg tp s.contentCache)) = some b
  rw [buttonServed_cacheAfterPopupHandling]
  exact hb

/-- Draining the queue outside of loading evaluates exactly the queued
trigger points, in arrival order, leaves the queue as it was, and never
re-enters the loading state. -/
theorem drainQueue_processed (cfg : ProviderConfig) :
    ∀ (queue : List QueuedTriggerPoint) (s : ProviderState),
      s.isContentLoading = false →
      (drainQueue cfg s queue).processedTriggerPoints
          = s.processedTriggerPoints ++ queue.map QueuedTriggerPoint.triggerPoint ∧
      (drainQueue cfg s queue).eventQueue = s.eventQueue ∧
      (drainQueue cfg s queue).isContentLoading = false
  | [], s, hl => by simp [drainQueue, hl]
  | q :: qs, s, hl => by
    have hstep := triggerPointStep_not_loading cfg s q.triggerPoint q.callback hl
    have hl' : (triggerPointStep cfg s q.triggerPoint q.callback).isContentLoading = false := by
      rw [hstep]; exact hl
    have ih := drainQueue_processed cfg qs
      (triggerPointStep cfg s q.triggerPoint q.callback) hl'
    have hdrain : drainQueue cfg s (q :: qs)
        = drainQueue cfg (triggerPointStep cfg s q.triggerPoint q.callback) qs := rfl
    rw [hdrain]
    refine ⟨?_, ?_, ih.2.2⟩
    · rw [ih.1, hstep]
      simp
    · rw [ih.2.1, hstep]
/-- Predicate for claim C7: the entries of the storage backend in use
(and the in-memory cells, which a clear always wipes) hold no token and
no expiration. -/
def sessionEntriesCleared (available : Bool) (s : SessionStore) : Prop :=
  if available then
    s.storedToken = none ∧ s.storedExpiration = none ∧
      s.inMemoryToken = none ∧ s.inMemoryExpiration = none
  else s.inMemoryToken = none ∧ s.inMemoryExpiration = none

/-- Claim C6: when every one of the `maxAttempts` invocations fails,
`retryWithBackoff` re-throws exactly the error value produced by the
last attempt — the very same value, no wrapping error. -/
theorem retry_all_attempts_fail_throws_last_error {ε α : Type}
    (fn : Nat → Except ε α) (cfg : RetryConfig) (errs : Nat → ε)
    (hpos : 0 < cfg.maxAttempts)
    (hfail : ∀ i, 1 ≤ i → i ≤ cfg.maxAttempts → fn i = Except.error (errs i)) :
    (retryWithBackoff fn cfg).result = Except.error (some (errs cfg.maxAttempts)) := by
  obtain ⟨r, hr⟩ : ∃ r, cfg.maxAttempts = r + 1 := ⟨cfg.maxAttempts - 1, by omega⟩
  have h := retryAux_all_fail fn cfg errs r 1 cfg.initialDelay
    (fun i hi1 hi2 => hfail i hi1 (by omega))
  unfold retryWithBackoff
  rw [hr]
  rw [h]
  have harith : 1 + r = r + 1 := Nat.add_comm 1 r
  rw [harith]

/-- Witness for C6 at a concrete operation failing on every attempt. -/
theorem retry_all_attempts_fail_throws_last_error_witness :
    (retryWithBackoff (fun i => (Except.error i : Except Nat Nat))
        defaultRetryConfig).result = Except.error (some 3) :=
  retry_all_attempts_fail_throws_last_error (fun i => Except.error i)
    defaultRetryConfig (fun i => i) (by decide) (fun _ _ _ => rfl)

/-- Witness for C5 at a concrete operation failing twice then
succeeding. -/
theorem retry_fails_twice_then_succeeds_witness :
    retryWithBackoff (fun i => if i = 3 then Except.ok 7 else Except.error i)
        { maxAttempts := 3, initialDelay := 1000, maxDelay := 32000, multiplier := 2 }
      = { result := Except.ok 7, calls := 3, delays := [1000, 2000] } :=
  retry_fails_twice_then_succeeds _ 1 2 7 rfl rfl rfl

/-- Claim C9: the composed fetcher propagates failure when built with a
retry wrapper (re-throwing the final attempt's error), swallows failure
into an empty content list when built without one, and treats a
non-2xx response as a failure. -/
theorem fetcher_failure_asymmetry (cfg : RetryConfig)
    (attempts attempts2 : Nat → Except String (ApiResponse TargetedContentResult))
    (errs : Nat → ApiError) (e2 : ApiError)
    (hpos : 0 < cfg.maxAttempts)
    (hfail : ∀ i, 1 ≤ i → i ≤ cfg.maxAttempts →
      makeRequest (attempts i) = Except.error (errs i))
    (hfail2 : makeRequest (attempts2 1) = Except.error e2) :
    fireTargetedContentEventViaApi (some cfg) attempts
        = Except.error (some (errs cfg.maxAttempts)) ∧
    fireTargetedContentEventViaApi none attempts2 = Except.ok emptyContentResult ∧
    ∀ (r : ApiResponse TargetedContentResult), r.ok = false →
      makeRequest (Except.ok r) = Except.error (ApiError.httpStatus r.status) := by
  refine ⟨?_, ?_, ?_⟩
  · obtain ⟨r, hr⟩ : ∃ r, cfg.maxAttempts = r + 1 := ⟨cfg.maxAttempts - 1, by omega⟩
    have h := retryAux_all_fail (fun i => makeRequest (attempts i)) cfg errs r 1
      cfg.initialDelay (fun i hi1 hi2 => hfail i hi1 (by omega))
    show (retryWithBackoff (fun i => makeRequest (attempts i)) cfg).result = _
    unfold retryWithBackoff
    rw [hr]
    rw [h]
    have harith : 1 + r = r + 1 := Nat.add_comm 1 r
    rw [harith]
  · simp [fireTargetedContentEventViaApi, hfail2]
  · intro r hr
    simp [makeRequest, hr]

/-- Witness for C9 at a concrete always-failing transport. -/
theorem fetcher_failure_asymmetry_witness :
    fireTargetedContentEventViaApi (some defaultRetryConfig)
        (fun _ => Except.error "network down")
      = Except.error (some (ApiError.transport "network down")) ∧
    fireTargetedContentEventViaApi none (fun _ => Except.error "network down")
      = Except.ok emptyContentResult ∧
    ∀ (r : ApiResponse TargetedContentResult), r.ok = false →
      makeRequest (Except.ok r) = Except.error (ApiError.httpStatus r.status) :=
  fetcher_failure_asymmetry defaultRetryConfig
    (fun _ => Except.error "network down") (fun _ => Except.error "network down")
    (fun _ => ApiError.transport "network down") (ApiError.transport "network down")
    (by decide) (fun _ _ _ => rfl) rfl

/-- Claim C7: storing a token with a positive `expiresIn` and reading at
the same instant returns the token; reading after the expiration
instant has passed returns nothing and clears the token and expiration
entries. -/
theorem session_token_roundtrip (s : SessionStore) (now later : Nat)
    (token : String) (expiresIn : Nat) (hpos : 0 < expiresIn)
    (hlater : now + expiresIn * 1000 < later) :
    (readSessionToken (storeSessionToken s now token expiresIn) now).1 = some token ∧
    (readSessionToken (storeSessionToken s now token expiresIn) later).1 = none ∧
    sessionEntriesCleared s.storageAvailable
      (readSessionToken (storeSessionToken s now token expiresIn) later).2 := by
  have hfresh : now < now + expiresIn * 1000 := by omega
  have hstale : ¬ later < now + expiresIn * 1000 := by omega
  by_cases hav : s.storageAvailable
  · refine ⟨?_, ?_, ?_⟩ <;>
      simp [storeSessionToken, readSessionToken, clearSessionToken,
        sessionEntriesCleared, hav, hfresh, hstale]
  · have hav' : s.storageAvailable = false := by simpa using hav
    refine ⟨?_, ?_, ?_⟩ <;>
      simp [storeSessionToken, readSessionToken, clearSessionToken,
        sessionEntriesCleared, hav', hfresh, hstale]

/-- Witness for C7 at a concrete store, instant and lifetime. -/
theorem session_token_roundtrip_witness :
    (readSessionToken (storeSessionToken
        { storageAvailable := true, storedToken := none, storedExpiration := none,
          inMemoryToken := none, inMemoryExpiration := none } 0 "tok" 60) 0).1
      = some "tok" ∧
    (readSessionToken (storeSessionToken
        { storageAvailable := true, storedToken := none, storedExpiration := none,
          inMemoryToken := none, inMemoryExpiration := none } 0 "tok" 60) 60001).1
      = none := by
  have h := session_token_roundtrip
    { storageAvailable := true, storedToken := none, storedExpiration := none,
      inMemoryToken := none, inMemoryExpiration := none } 0 60001 "tok" 60
    (by decide) (by decide)
  exact ⟨h.1, h.2.1⟩

/-- Claim C2 (code defect): `WaveCxContext` is created with a non-null
default object, so consuming the context outside a provider yields that
truthy default and the guard in `useWaveCx` can never fire — the
accessor returns the inert default interface instead of throwing. -/
theorem useWaveCx_outside_provider_returns_default :
    useWaveCx none = Except.ok waveCxContextDefault ∧
    ∀ pv, useWaveCx pv = Except.ok (useContextWaveCx pv) :=
  ⟨rfl, fun _ => rfl⟩
/-- A sample popup item at trigger point `"t1"` with a valid URL, used
by the concrete scenarios below. -/
def samplePopupItem : TargetedContent :=
  ⟨"t1", PresentationType.popup, "https://content.example/item"⟩

/-- A sample button-triggered item at trigger point `"t1"` with a valid
URL, used by the concrete scenarios below. -/
def sampleButtonItem : TargetedContent :=
  ⟨"t1", PresentationType.buttonTriggered, "https://content.example/offer"⟩

/-- Counterexample to claim C1 as stated: with popups disabled and a
cached popup item for `"t1"`, after handling a trigger-point event for
`"t1"` nothing is presented but the availability check still answers
`true` — the item was not removed, because disabling popups skips the
removal along with the presentation. -/
theorem disablePopup_check_counterexample :
    ¬ (checkPopupContent (runProvider ⟨true⟩ initialProviderState
          [PAction.sessionStartBegin,
           PAction.sessionStartComplete (some [samplePopupItem]),
           PAction.triggerPoint "t1" none]) "t1" = false) ∧
    presentedContent (runProvider ⟨true⟩ initialProviderState
          [PAction.sessionStartBegin,
           PAction.sessionStartComplete (some [samplePopupItem]),
           PAction.triggerPoint "t1" none]) = none := by
  constructor
  · decide
  · decide

/-- Claim C1, amended: with `disablePopupContent = true`, a
trigger-point event never presents popup content (anything presented is
button-triggered), but the popup block — including cache removal — is
skipped entirely, so the cache, the popup presentation history and the
availability check are left exactly as they were. -/
theorem disablePopup_never_presents_but_keeps_cache (cfg : ProviderConfig)
    (hcfg : cfg.disablePopupContent = true) (s : ProviderState) (tp : String)
    (cb : Option Nat) :
    (triggerPointStep cfg s tp cb).activePopupContent = none ∧
    (triggerPointStep cfg s tp cb).contentCache = s.contentCache ∧
    (triggerPointStep cfg s tp cb).presentedPopups = s.presentedPopups ∧
    checkPopupContent (triggerPointStep cfg s tp cb) tp = checkPopupContent s tp ∧
    (∀ c, presentedContent (triggerPointStep cfg s tp cb) = some c →
      c.presentationType = PresentationType.buttonTriggered) := by
  by_cases hl : s.isContentLoading
  · rw [triggerPointStep_loading cfg s tp cb hl]
    refine ⟨rfl, rfl, rfl, rfl, ?_⟩
    intro c hc
    unfold presentedContent at hc
    simp at hc
  · rw [triggerPointStep_not_loading cfg s tp cb (by simpa using hl)]
    have hps : popupServed cfg tp s.contentCache = none := by
      unfold popupServed
      simp [hcfg]
    have hca : cacheAfterPopupHandling cfg tp s.contentCache = s.contentCache := by
      unfold cacheAfterPopupHandling
      simp [hcfg]
    refine ⟨hps, hca, ?_, ?_, ?_⟩
    · show (match popupServed cfg tp s.contentCache with
        | some p => p :: s.presentedPopups
        | none => s.presentedPopups) = s.presentedPopups
      rw [hps]
    · show (cacheAfterPopupHandling cfg tp s.contentCache).any _
        = s.contentCache.any _
      rw [hca]
    · intro c hc
      unfold presentedContent at hc
      simp only [hps] at hc
      by_cases hsh : s.isUserTriggeredContentShown
      · simp only [hsh, if_true] at hc
        exact (buttonServed_spec hc).2.2.1
      · simp [hsh] at hc

/-- Witness for the amended C1 at the concrete counterexample state. -/
theorem disablePopup_never_presents_but_keeps_cache_witness :
    (triggerPointStep ⟨true⟩
        { initialProviderState with contentCache := [samplePopupItem] }
        "t1" none).activePopupContent = none ∧
    checkPopupContent (triggerPointStep ⟨true⟩
        { initialProviderState with contentCache := [samplePopupItem] }
        "t1" none) "t1" = true := by
  have h := disablePopup_never_presents_but_keeps_cache ⟨true⟩ rfl
    { initialProviderState with contentCache := [samplePopupItem] } "t1" none
  refine ⟨h.1, ?_⟩
  rw [h.2.2.2.1]
  decide

/-- Claim C3: over any action sequence the cache never holds a popup
item already presented for its trigger point (single use, relative to
the latest cache population); and a button-triggered item survives
every trigger-point event, and once served it remains cached and the
same trigger point serves it again (multi use, until the cache is
cleared). -/
theorem popup_single_use_button_multi_use (cfg : ProviderConfig)
    (actions : List PAction) :
    PopupSingleUseInv (runProvider cfg initialProviderState actions) ∧
    (∀ (s : ProviderState) (tp : String) (cb : Option Nat) (b : TargetedContent),
      b ∈ s.contentCache → b.presentationType = PresentationType.buttonTriggered →
      b ∈ (triggerPointStep cfg s tp cb).contentCache) ∧
    (∀ (s : ProviderState) (tp : String) (cb cb' : Option Nat) (b : TargetedContent),
      s.isContentLoading = false →
      (triggerPointStep cfg s tp cb).activeUserTriggeredContent = some b →
      b ∈ (triggerPointStep cfg s tp cb).contentCache ∧
      (triggerPointStep cfg (triggerPointStep cfg s tp cb) tp
          cb').activeUserTriggeredContent = some b) := by
  refine ⟨runProvider_popupSingleUse cfg actions _ initial_popupSingleUse, ?_, ?_⟩
  · intro s tp cb b hmem hbt
    by_cases hl : s.isContentLoading
    · rw [triggerPointStep_loading cfg s tp cb hl]
      exact hmem
    · rw [triggerPointStep_not_loading cfg s tp cb (by simpa using hl)]
      show b ∈ cacheAfterPopupHandling cfg tp s.contentCache
      unfold cacheAfterPopupHandling
      by_cases hd : cfg.disablePopupContent
      · simpa [hd] using hmem
      · rw [if_neg hd]
        exact button_mem_removePopupMatches hmem hbt
  · intro s tp cb cb' b hl hb
    exact ⟨(triggerPointStep_serves_button hl hb).1,
           triggerPointStep_refires_button hl hb⟩

/-- Witness for C3: a concrete run satisfying the single-use invariant,
and a concrete served button-triggered item that stays cached and is
served again. -/
theorem popup_single_use_button_multi_use_witness :
    PopupSingleUseInv (runProvider ⟨false⟩ initialProviderState
      [PAction.sessionStartBegin,
       PAction.sessionStartComplete (some [sampleButtonItem]),
       PAction.triggerPoint "t1" none]) ∧
    sampleButtonItem ∈ (triggerPointStep ⟨false⟩
      { initialProviderState with contentCache := [sampleButtonItem] }
      "t1" none).contentCache ∧
    (triggerPointStep ⟨false⟩
        (triggerPointStep ⟨false⟩
          { initialProviderState with contentCache := [sampleButtonItem] }
          "t1" none) "t1" none).activeUserTriggeredContent
      = some sampleButtonItem := by
  have h := popup_single_use_button_multi_use ⟨false⟩
    [PAction.sessionStartBegin,
     PAction.sessionStartComplete (some [sampleButtonItem]),
     PAction.triggerPoint "t1" none]
  have h3 := h.2.2
    { initialProviderState with contentCache := [sampleButtonItem] }
    "t1" none none sampleButtonItem rfl (by decide)
  exact ⟨h.1, h3.1, h3.2⟩
/-- Claim C4: a trigger-point event arriving while loading is appended
to the queue verbatim — the cache, the processed-trigger-point history
and the loading flag are untouched, so no content lookup happens; no
other event variant ever extends the queue; and once a session fetch
completes (only then is the loading flag dropped), the queued trigger
points are evaluated exactly once, in arrival order, leaving the queue
empty. -/
theorem trigger_point_queueing_fifo (cfg : ProviderConfig) (s : ProviderState)
    (tp : String) (cb : Option Nat) (outcome : Option (List TargetedContent)) :
    (s.isContentLoading = true →
      triggerPointStep cfg s tp cb = { s with
        activePopupContent := none
        activeUserTriggeredContent := none
        onContentDismissedCallback := cb
        eventQueue := s.eventQueue ++ [{ triggerPoint := tp, callback := cb }] }) ∧
    (providerStep cfg s PAction.sessionStartBegin).eventQueue = s.eventQueue ∧
    (providerStep cfg s PAction.sessionEnded).eventQueue = s.eventQueue ∧
    (providerStep cfg s (PAction.userTriggeredContent cb)).eventQueue = s.eventQueue ∧
    (providerStep cfg s PAction.dismissContent).eventQueue = s.eventQueue ∧
    (providerStep cfg s (PAction.sessionStartComplete outcome)).eventQueue = [] ∧
    (providerStep cfg s (PAction.sessionStartComplete outcome)).processedTriggerPoints
      = s.processedTriggerPoints
        ++ s.eventQueue.map QueuedTriggerPoint.triggerPoint := by
  refine ⟨fun hl => triggerPointStep_loading cfg s tp cb hl, rfl, rfl, rfl, rfl, ?_, ?_⟩
  · cases outcome with
    | none =>
      have h := drainQueue_processed cfg s.eventQueue
        { s with isContentLoading := false, eventQueue := [] } rfl
      exact h.2.1
    | some content =>
      have h := drainQueue_processed cfg s.eventQueue
        { s with contentCache := content, presentedPopups := [],
                 isContentLoading := false, eventQueue := [] } rfl
      exact h.2.1
  · cases outcome with
    | none =>
      have h := drainQueue_processed cfg s.eventQueue
        { s with isContentLoading := false, eventQueue := [] } rfl
      exact h.1
    | some content =>
      have h := drainQueue_processed cfg s.eventQueue
        { s with contentCache := content, presentedPopups := [],
                 isContentLoading := false, eventQueue := [] } rfl
      exact h.1

/-- Witness for C4: queueing a concrete trigger-point event during
loading, then draining a concrete two-element queue in order. -/
theorem trigger_point_queueing_fifo_witness :
    (triggerPointStep ⟨false⟩
        { initialProviderState with isContentLoading := true } "t1" none).eventQueue
      = [{ triggerPoint := "t1", callback := none }] ∧
    (providerStep ⟨false⟩
        { initialProviderState with
            isContentLoading := true,
            eventQueue := [⟨"t1", none⟩, ⟨"t2", none⟩] }
        (PAction.sessionStartComplete (some []))).eventQueue = [] ∧
    (providerStep ⟨false⟩
        { initialProviderState with
            isContentLoading := true,
            eventQueue := [⟨"t1", none⟩, ⟨"t2", none⟩] }
        (PAction.sessionStartComplete (some []))).processedTriggerPoints
      = ["t1", "t2"] := by
  have h1 := (trigger_point_queueing_fifo ⟨false⟩
    { initialProviderState with isContentLoading := true } "t1" none none).1 rfl
  have h2 := trigger_point_queueing_fifo ⟨false⟩
    { initialProviderState with
        isContentLoading := true,
        eventQueue := [⟨"t1", none⟩, ⟨"t2", none⟩] } "t0" none (some [])
  refine ⟨?_, h2.2.2.2.2.2.1, ?_⟩
  · rw [h1]
    decide
  · rw [h2.2.2.2.2.2.2]
    decide

/-- Claim C8: content URLs with the `javascript:` scheme are rejected
by both validators regardless of mock mode; `data:` URLs pass the
mock-aware validator exactly when mock mode is on and never pass the
plain one; `http:`/`https:` URLs always pass; and in any reachable
provider state the presented content passed validation — an item with
a rejected URL is never presented. -/
theorem content_url_scheme_policy (url : String) (mock : Bool)
    (cfg : ProviderConfig) (actions : List PAction) (c : TargetedContent) :
    (parseUrlProtocol url = some "javascript:" →
      isValidContentUrl url = false ∧ isValidContentUrlMock url mock = false) ∧
    (parseUrlProtocol url = some "data:" →
      isValidContentUrlMock url mock = mock ∧ isValidContentUrl url = false) ∧
    ((parseUrlProtocol url = some "http:" ∨ parseUrlProtocol url = some "https:") →
      isValidContentUrl url = true ∧ isValidContentUrlMock url mock = true) ∧
    (presentedContent (runProvider cfg initialProviderState actions) = some c →
      isValidContentUrl c.viewUrl = true) := by
  refine ⟨?_, ?_, ?_, ?_⟩
  · intro h
    constructor <;> simp [isValidContentUrl, isValidContentUrlMock, h]
  · intro h
    constructor
    · cases mock <;> simp [isValidContentUrlMock, h]
    · simp [isValidContentUrl, h]
  · intro h
    rcases h with h | h <;> constructor <;>
      simp [isValidContentUrl, isValidContentUrlMock, h]
  · intro hp
    exact presentedContent_valid
      (runProvider_validActive cfg actions _ initial_validActive) hp

/-- The invalid-scheme item used by the C8 witness scenario. -/
def usedJsItem : TargetedContent :=
  ⟨"t1", PresentationType.popup, "javascript:alert(1)"⟩

/-- Witness for C8 at the concrete URLs of the specification
scenario. -/
theorem content_url_scheme_policy_witness :
    isValidContentUrl "javascript:alert(1)" = false ∧
    isValidContentUrlMock "javascript:alert(1)" true = false ∧
    isValidContentUrlMock "data:text/html;base64,PGgxPg==" true = true ∧
    isValidContentUrlMock "data:text/html;base64,PGgxPg==" false = false ∧
    isValidContentUrl "https://content.example/a" = true ∧
    (presentedContent (runProvider ⟨false⟩ initialProviderState
        [PAction.sessionStartBegin,
         PAction.sessionStartComplete
           (some [⟨"t1", PresentationType.popup, "javascript:alert(1)"⟩]),
         PAction.triggerPoint "t1" none]) = some usedJsItem →
      isValidContentUrl usedJsItem.viewUrl = true) := by
  refine ⟨?_, ?_, ?_, ?_, ?_, ?_⟩
  · exact ((content_url_scheme_policy "javascript:alert(1)" true ⟨false⟩ []
      samplePopupItem).1 (by decide)).1
  · exact ((content_url_scheme_policy "javascript:alert(1)" true ⟨false⟩ []
      samplePopupItem).1 (by decide)).2
  · exact ((content_url_scheme_policy "data:text/html;base64,PGgxPg==" true ⟨false⟩ []
      samplePopupItem).2.1 (by decide)).1
  · exact ((content_url_scheme_policy "data:text/html;base64,PGgxPg==" false ⟨false⟩ []
      samplePopupItem).2.1 (by decide)).1
  · exact ((content_url_scheme_policy "https://content.example/a" true ⟨false⟩ []
      samplePopupItem).2.2.1 (Or.inr (by decide))).1
  · exact (content_url_scheme_policy "https://content.example/a" true ⟨false⟩
      [PAction.sessionStartBegin,
       PAction.sessionStartComplete
         (some [⟨"t1", PresentationType.popup, "javascript:alert(1)"⟩]),
       PAction.triggerPoint "t1" none] usedJsItem).2.2.2

/-- Claim C10: a session-ended event leaves the
user-triggered-content-shown flag alone (as does trigger-point
processing), so when the flag is still set, the first later
trigger-point event that identifies valid button-triggered content and
no popup presents that content immediately. -/
theorem session_ended_preserves_user_triggered_shown (cfg : ProviderConfig)
    (s : ProviderState) (tp : String) (cb : Option Nat) (b : TargetedContent) :
    (sessionEndedStep s).isUserTriggeredContentShown
        = s.isUserTriggeredContentShown ∧
    (triggerPointStep cfg s tp cb).isUserTriggeredContentShown
        = s.isUserTriggeredContentShown ∧
    (s.isUserTriggeredContentShown = true →
      (triggerPointStep cfg s tp cb).activePopupContent = none →
      (triggerPointStep cfg s tp cb).activeUserTriggeredContent = some b →
      presentedContent (triggerPointStep cfg s tp cb) = some b) := by
  have hpre : (triggerPointStep cfg s tp cb).isUserTriggeredContentShown
      = s.isUserTriggeredContentShown := by
    by_cases hl : s.isContentLoading
    · rw [triggerPointStep_loading cfg s tp cb hl]
    · rw [triggerPointStep_not_loading cfg s tp cb (by simpa using hl)]
  refine ⟨rfl, hpre, ?_⟩
  intro hsh hpop hutc
  unfold presentedContent
  rw [hpop]
  simp [hpre, hsh, hutc]

/-- Witness for C10: user-triggered content is shown, the session ends
without a dismissal, a new session repopulates the cache, and the next
trigger-point event presents the button-triggered item at once. -/
theorem session_ended_preserves_user_triggered_shown_witness :
    (runProvider ⟨false⟩ initialProviderState
        [PAction.sessionStartBegin,
         PAction.sessionStartComplete (some [sampleButtonItem]),
         PAction.triggerPoint "t1" none, PAction.userTriggeredContent none,
         PAction.sessionEnded, PAction.sessionStartBegin,
         PAction.sessionStartComplete (some [sampleButtonItem])]
      ).isUserTriggeredContentShown = true ∧
    presentedContent (triggerPointStep ⟨false⟩
        (runProvider ⟨false⟩ initialProviderState
          [PAction.sessionStartBegin,
           PAction.sessionStartComplete (some [sampleButtonItem]),
           PAction.triggerPoint "t1" none, PAction.userTriggeredContent none,
           PAction.sessionEnded, PAction.sessionStartBegin,
           PAction.sessionStartComplete (some [sampleButtonItem])])
        "t1" none) = some sampleButtonItem := by
  have h := session_ended_preserves_user_triggered_shown ⟨false⟩
    (runProvider ⟨false⟩ initialProviderState
      [PAction.sessionStartBegin,
       PAction.sessionStartComplete (some [sampleButtonItem]),
       PAction.triggerPoint "t1" none, PAction.userTriggeredContent none,
       PAction.sessionEnded, PAction.sessionStartBegin,
       PAction.sessionStartComplete (some [sampleButtonItem])])
    "t1" none sampleButtonItem
  exact ⟨by decide, h.2.2 (by decide) (by decide) (by decide)⟩

end WaveCx
